import Mathlib

/-!
Verification of the napi-fuser bridge (src/fs_impl.rs, src/js_callbacks.rs,
src/lib.rs): a shallow embedding of the data marshalling layer and of the
dispatch/reply logic of every implemented FUSE operation, followed by theorems
about the spec's claims.

Machine integers are modelled as `Int` (for Rust `i32`/`i64`) and `Nat` (for
`u16`/`u32`/`u64`); Rust `as` casts that can wrap are explicit `% 2^w`
conversions.  `SystemTime` is modelled as milliseconds since the Unix epoch.
Byte buffers are `List Nat`.
-/

namespace NapiFuser

/-- Rust `x as u64` for `x : i64`: two's-complement reinterpretation. -/
def i64AsU64 (x : Int) : Nat := (x % (2 : Int) ^ 64).toNat

/-- Rust `n as i64` for `n : u64`: two's-complement reinterpretation. -/
def u64AsI64 (n : Nat) : Int :=
  if n < 2 ^ 63 then (n : Int) else (n : Int) - 2 ^ 64

/-- `InodeKind` enum from js_callbacks.rs. -/
inductive InodeKind where
  | directory
  | file
  | symLink
deriving DecidableEq, Repr

/-- fuser's `FileType` enum (external crate); the dispatch code uses the
`Directory`, `RegularFile` and `Symlink` arms. -/
inductive FileType where
  | namedPipe
  | charDevice
  | blockDevice
  | directory
  | regularFile
  | symlink
  | socket
deriving DecidableEq, Repr

/-- `to_file_type` from js_callbacks.rs. -/
def to_file_type : InodeKind → FileType
  | .directory => .directory
  | .file => .regularFile
  | .symLink => .symlink

/-- `BLOCK_SIZE` constant from js_callbacks.rs. -/
def BLOCK_SIZE : Nat := 4096

/-- `blocks_in` from js_callbacks.rs: block count derived from a u64 size. -/
def blocks_in (size : Nat) : Nat :=
  let d := size / BLOCK_SIZE
  let r := size % BLOCK_SIZE
  if r > 0 then d + 1 else d

/-- JS-side `FileAttr` struct from js_callbacks.rs: `i64` fields as `Int`,
`u16`/`u32` fields as `Nat`. -/
structure FileAttr where
  ino : Int
  size : Int
  mtime : Int
  ctime : Int
  btime : Int
  kind : InodeKind
  perm : Nat
  uid : Nat
  gid : Nat
  rdev : Nat
  flags : Nat
deriving DecidableEq, Repr

/-- `system_time_from` from js_callbacks.rs:
`SystemTime::UNIX_EPOCH + Duration::from_millis(millis as u64)`, modelled as
milliseconds since the epoch. -/
def system_time_from (millis : Int) : Nat := i64AsU64 millis

/-- fuser's protocol-level `FileAttr` struct (the fields `into_fuse` fills). -/
structure FuseFileAttr where
  ino : Nat
  size : Nat
  blocks : Nat
  atime : Nat
  mtime : Nat
  ctime : Nat
  crtime : Nat
  kind : FileType
  perm : Nat
  nlink : Nat
  uid : Nat
  gid : Nat
  rdev : Nat
  blksize : Nat
  flags : Nat
deriving DecidableEq, Repr

/-- `FileAttr::into_fuse` from js_callbacks.rs. -/
def FileAttr.into_fuse (a : FileAttr) : FuseFileAttr :=
  let mtime := system_time_from a.mtime
  { atime := mtime
    crtime := system_time_from a.btime
    ctime := system_time_from a.ctime
    flags := a.flags
    gid := a.gid
    uid := a.uid
    ino := i64AsU64 a.ino
    kind := to_file_type a.kind
    mtime := mtime
    nlink := 1
    perm := a.perm
    rdev := a.rdev
    size := i64AsU64 a.size
    blksize := BLOCK_SIZE
    blocks := blocks_in (i64AsU64 a.size) }

/-- `AttrChanges` struct from js_callbacks.rs. -/
structure AttrChanges where
  mode : Option Nat
  uid : Option Nat
  gid : Option Nat
  flags : Option Nat
deriving DecidableEq, Repr

/-- `ParamsOfOpened` struct from js_callbacks.rs. -/
structure ParamsOfOpened where
  fh : Int
  flags : Nat
deriving DecidableEq, Repr

/-- `ReadArgs` struct from js_callbacks.rs. -/
structure ReadArgs where
  offset : Int
  size : Nat
  flags : Int
  lock_owner : Option Int
deriving DecidableEq, Repr

/-- `ReleaseArgs` struct from js_callbacks.rs. -/
structure ReleaseArgs where
  flags : Int
  lock_owner : Option Int
  flush : Bool
deriving DecidableEq, Repr

/-- `DirEntry` struct from js_callbacks.rs: one handler-produced directory
entry. -/
structure DirEntry where
  ino : Int
  offset : Int
  kind : InodeKind
  name : String
deriving DecidableEq, Repr

/-- `FileAttrOrErr` result envelope from js_callbacks.rs. -/
inductive FileAttrOrErr where
  | attr (a : FileAttr)
  | err (code : Int)
deriving DecidableEq, Repr

/-- `ParamsOfOpenedOrErr` result envelope from js_callbacks.rs. -/
inductive ParamsOfOpenedOrErr where
  | params (p : ParamsOfOpened)
  | err (code : Int)
deriving DecidableEq, Repr

/-- `BufferOrErr` result envelope from js_callbacks.rs; `Buffer` is a byte
list. -/
inductive BufferOrErr where
  | ok (data : List Nat)
  | err (code : Int)
deriving DecidableEq, Repr

/-- `XAttrBytesOrErr` result envelope from js_callbacks.rs. -/
inductive XAttrBytesOrErr where
  | data (bytes : List Nat)
  | size (n : Nat)
  | err (code : Int)
deriving DecidableEq, Repr

/-- `DirListing` result envelope from js_callbacks.rs. -/
inductive DirListing where
  | lst (l : List DirEntry)
  | err (code : Int)
deriving DecidableEq, Repr

/-! ### Marshalling helpers from fs_impl.rs -/

/-- `fh_opt_i64` from fs_impl.rs. -/
def fh_opt_i64 (x : Option Nat) : Option Int :=
  match x with
  | some n => some (u64AsI64 n)
  | _ => none

/-- `lo_opt_i64` from fs_impl.rs. -/
def lo_opt_i64 (x : Option Nat) : Option Int :=
  match x with
  | some n => some (u64AsI64 n)
  | _ => none

/-- Standard UTF-8 validity of a byte sequence (RFC 3629, the check performed
by Rust's `OsStr::to_str`): ASCII, or a correctly ranged 2-, 3- or 4-byte
sequence with continuation bytes in 0x80..0xBF and no overlong, surrogate or
out-of-range encodings. -/
def isUtf8Cont (b : Nat) : Bool := 0x80 ≤ b && b ≤ 0xBF

/-- See `isUtf8Cont`; validates a whole byte list as UTF-8. -/
def utf8Valid : List Nat → Bool
  | [] => true
  | b :: rest =>
    if b < 0x80 then utf8Valid rest
    else if 0xC2 ≤ b && b ≤ 0xDF then
      match rest with
      | b1 :: rest1 => isUtf8Cont b1 && utf8Valid rest1
      | _ => false
    else if b = 0xE0 then
      match rest with
      | b1 :: b2 :: rest2 =>
        (0xA0 ≤ b1 && b1 ≤ 0xBF) && isUtf8Cont b2 && utf8Valid rest2
      | _ => false
    else if (0xE1 ≤ b && b ≤ 0xEC) || b = 0xEE || b = 0xEF then
      match rest with
      | b1 :: b2 :: rest2 => isUtf8Cont b1 && isUtf8Cont b2 && utf8Valid rest2
      | _ => false
    else if b = 0xED then
      match rest with
      | b1 :: b2 :: rest2 =>
        (0x80 ≤ b1 && b1 ≤ 0x9F) && isUtf8Cont b2 && utf8Valid rest2
      | _ => false
    else if b = 0xF0 then
      match rest with
      | b1 :: b2 :: b3 :: rest3 =>
        (0x90 ≤ b1 && b1 ≤ 0xBF) && isUtf8Cont b2 && isUtf8Cont b3 && utf8Valid rest3
      | _ => false
    else if 0xF1 ≤ b && b ≤ 0xF3 then
      match rest with
      | b1 :: b2 :: b3 :: rest3 =>
        isUtf8Cont b1 && isUtf8Cont b2 && isUtf8Cont b3 && utf8Valid rest3
      | _ => false
    else if b = 0xF4 then
      match rest with
      | b1 :: b2 :: b3 :: rest3 =>
        (0x80 ≤ b1 && b1 ≤ 0x8F) && isUtf8Cont b2 && isUtf8Cont b3 && utf8Valid rest3
      | _ => false
    else false

/-- `str_from_os` from fs_impl.rs: `s.to_str().unwrap().to_string()`.
A Rust `String` is modelled by its UTF-8 byte list; `none` models the panic of
`unwrap()` on a name that is not valid UTF-8 (the dispatch thread unwinds and
no reply is produced for that call). -/
def str_from_os (s : List Nat) : Option (List Nat) :=
  if utf8Valid s then some s else none

/-! ### The call bridge: `call_js!` arm #2 (`@initial-thread`), fs_impl.rs
lines 59-88.

The macro creates a fresh `channel::<Option<T>>` per call, submits the
arguments to the JS callback with a completion continuation, and blocks on
`recv_timeout(Duration::from_secs(30))`.  The continuation sends `Some(v)`
when the callback's promise resolves with `v`, `None` when the promise
rejects or the callback itself is invoked with an error, and sends nothing
(the channel is closed when the sender is dropped) if the continuation is
lost.  A `JsCallFate` records which of these happened and at what time `t`
(seconds after the call) the channel observes it. -/

/-- Fate of one bridged call's completion path, as observed by the per-call
rendezvous channel. -/
inductive JsCallFate (α : Type) where
  | resolveAt (t : Nat) (v : α)
  | rejectAt (t : Nat)
  | callbackErrAt (t : Nat)
  | lostAt (t : Nat)
deriving DecidableEq, Repr

/-- The signal the completion path of `call_js!` puts into the rendezvous
channel: `some m` when message `m` is sent (`m = some v` on promise
resolution, `m = none` on rejection or callback error), `none` when the
sender is dropped without a send. -/
def sentSignal {α : Type} : JsCallFate α → Option (Option α)
  | .resolveAt _ v => some (some v)
  | .rejectAt _ => some none
  | .callbackErrAt _ => some none
  | .lostAt _ => none

/-- The time (seconds after the call) at which the channel observes the
completion path's signal or closure. -/
def eventTime {α : Type} : JsCallFate α → Nat
  | .resolveAt t _ => t
  | .rejectAt t => t
  | .callbackErrAt t => t
  | .lostAt t => t

/-- Result of `Receiver::recv_timeout`. -/
inductive RecvTimeoutResult (μ : Type) where
  | ok (m : μ)
  | timeout
  | disconnected
deriving DecidableEq, Repr

/-- `recv_timeout` on the per-call rendezvous channel: a message sent within
the bound is received, a channel closed within the bound reports
disconnection, anything later reports a timeout. -/
def recvTimeout {α : Type} (timeoutSecs : Nat) (fate : JsCallFate α) :
    RecvTimeoutResult (Option α) :=
  if eventTime fate ≤ timeoutSecs then
    match sentSignal fate with
    | some m => .ok m
    | none => .disconnected
  else .timeout

/-- The fixed bound of the blocking wait in `call_js!`:
`Duration::from_secs(30)`. -/
def RECV_TIMEOUT_SECS : Nat := 30

/-- `call_js!` arm #2 (`@initial-thread`), fs_impl.rs lines 83-86: the
dispatch thread's final match — `Ok(Some(v))` runs the operation's
translation closure, every other outcome replies `Errno::EIO`. -/
def callJsInitialThread {α ρ : Type} (fate : JsCallFate α)
    (withReply : α → ρ) (errReply : ρ) : ρ :=
  match recvTimeout RECV_TIMEOUT_SECS fate with
  | .ok (some v) => withReply v
  | _ => errReply

/-- The value the final match of `call_js!` acts on: `some v` exactly when
`recv_timeout` returns `Ok(Some(v))` within the 30-second bound. -/
def deliveredValue {α : Type} (fate : JsCallFate α) : Option α :=
  match recvTimeout RECV_TIMEOUT_SECS fate with
  | .ok (some v) => some v
  | _ => none

/-- "Translation of the delivered value, else the error reply": the outcome
the bridge is claimed to produce, phrased through `deliveredValue`. -/
def translated {α ρ : Type} (fate : JsCallFate α) (tr : α → ρ) (er : ρ) : ρ :=
  match deliveredValue fate with
  | some v => tr v
  | none => er

/-! ### Protocol reply sinks (fuser's Reply* types)

Each reply object sends exactly one protocol answer; the variants below
record which answer was sent.  `DirReplyState` is stateful: it records the
entries accumulated by `ReplyDirectory::add`, the number of `ok()` calls and
the error codes sent. -/

/-- Reply of `ReplyEntry`: `entry(&ttl, &attr, generation)` or an error. -/
inductive EntryReply where
  | entry (ttlSecs : Nat) (attr : FuseFileAttr) (generation : Nat)
  | error (errno : Int)
deriving DecidableEq, Repr

/-- Reply of `ReplyAttr`: `attr(&ttl, &attr)` or an error. -/
inductive AttrReply where
  | attr (ttlSecs : Nat) (attr : FuseFileAttr)
  | error (errno : Int)
deriving DecidableEq, Repr

/-- Reply of `ReplyOpen`: `opened(fh, flags)` or an error. -/
inductive OpenReply where
  | opened (fh : Nat) (flags : Nat)
  | error (errno : Int)
deriving DecidableEq, Repr

/-- Reply of `ReplyData`: a byte payload or an error. -/
inductive DataReply where
  | data (bytes : List Nat)
  | error (errno : Int)
deriving DecidableEq, Repr

/-- Reply of `ReplyEmpty`: bare `ok()` or an error. -/
inductive EmptyReply where
  | ok
  | error (errno : Int)
deriving DecidableEq, Repr

/-- Reply of `ReplyXattr`: `data(bytes)`, `size(n)` or an error. -/
inductive XattrReply where
  | data (bytes : List Nat)
  | size (n : Nat)
  | error (errno : Int)
deriving DecidableEq, Repr

/-- `Errno::from_i32` (external fuser crate): wraps the raw i32 error code
unchanged. -/
def errnoFromI32 (code : Int) : Int := code

/-- `Errno::EIO`, the generic I/O error (value 5 on Linux). -/
def ioErr : Int := 5

/-- `Errno::ENOSYS`, function not implemented (value 38 on Linux). -/
def enosysErr : Int := 38

/-- `TTL` constant from fs_impl.rs: `Duration::from_secs(1)`, in seconds. -/
def TTL_SECS : Nat := 1

/-! ### Dispatch Proxy operations (fs_impl.rs, `impl Filesystem for
CallbacksProxy`)

Each value-returning operation marshals its arguments, dispatches through
`call_js!` and translates the resolved envelope into its reply sink.
Arguments that are only forwarded to the JS handler (and so do not influence
which reply is produced, given the handler's fate) carry an underscore, as in
the source.  Operations whose kernel-supplied name goes through
`str_from_os` return an `Option`: `none` models the panic on invalid
UTF-8. -/

/-- `send_xattr` from fs_impl.rs. -/
def send_xattr : XAttrBytesOrErr → XattrReply
  | .data data => .data data
  | .size size => .size size
  | .err code => .error (errnoFromI32 code)

/-- The translation closure of `lookup` (fs_impl.rs lines 149-154). -/
def lookupWithReply : FileAttrOrErr → EntryReply
  | .attr attrs => .entry TTL_SECS attrs.into_fuse 0
  | .err code => .error (errnoFromI32 code)

/-- `lookup` (fs_impl.rs lines 146-156): marshals
`(parent.0 as i64, str_from_os(name))` and dispatches. -/
def lookup (_parent : Nat) (name : List Nat) (fate : JsCallFate FileAttrOrErr) :
    Option EntryReply :=
  match str_from_os name with
  | none => none
  | some _ => some (callJsInitialThread fate lookupWithReply (.error ioErr))

/-- The translation closure of `getattr` (fs_impl.rs lines 165-170). -/
def getattrWithReply : FileAttrOrErr → AttrReply
  | .attr attrs => .attr TTL_SECS attrs.into_fuse
  | .err code => .error (errnoFromI32 code)

/-- `getattr` (fs_impl.rs lines 162-172). -/
def getattr (_ino : Nat) (_fh : Option Nat) (fate : JsCallFate FileAttrOrErr) :
    AttrReply :=
  callJsInitialThread fate getattrWithReply (.error ioErr)

/-- `setattr` (fs_impl.rs lines 174-202): builds `AttrChanges` and dispatches
with the same translation as `getattr`. -/
def setattr (_ino : Nat) (_fh : Option Nat) (_changes : AttrChanges)
    (fate : JsCallFate FileAttrOrErr) : AttrReply :=
  callJsInitialThread fate getattrWithReply (.error ioErr)

/-- `readlink` (fs_impl.rs lines 204-206): answered synchronously with
`Errno::ENOSYS`; the body contains no `call_js!`, so no handler is invoked
and no rendezvous channel exists (hence no `JsCallFate` argument). -/
def readlink (_ino : Nat) : DataReply :=
  .error enosysErr

/-- `FopenFlags::from_bits` (external bitflags type): succeeds iff no bit
outside the type's valid mask is set; the mask is a parameter of the model. -/
def fopenFlagsFromBits (validMask : Nat) (bits : Nat) : Option Nat :=
  if bits &&& validMask = bits then some bits else none

/-- The translation closure shared by `open` and `opendir` (fs_impl.rs lines
311-319 and 408-416). -/
def openWithReply (validMask : Nat) : ParamsOfOpenedOrErr → OpenReply
  | .params p =>
    match fopenFlagsFromBits validMask p.flags with
    | some flags => .opened (i64AsU64 p.fh) flags
    | none => .error ioErr
  | .err code => .error (errnoFromI32 code)

/-- `open` (fs_impl.rs lines 308-321). -/
def openOp (validMask : Nat) (_ino : Nat) (_flags : Int)
    (fate : JsCallFate ParamsOfOpenedOrErr) : OpenReply :=
  callJsInitialThread fate (openWithReply validMask) (.error ioErr)

/-- The translation closure of `read` (fs_impl.rs lines 342-347). -/
def readWithReply : BufferOrErr → DataReply
  | .ok data => .data data
  | .err code => .error (errnoFromI32 code)

/-- `read` (fs_impl.rs lines 323-349). -/
def read (_ino _fh : Nat) (_args : ReadArgs) (fate : JsCallFate BufferOrErr) :
    DataReply :=
  callJsInitialThread fate readWithReply (.error ioErr)

/-- `release` (fs_impl.rs lines 377-396): the translation closure discards
the resolved value — `|_| reply.ok()`; the handler's promise carries an i32
code (`ReleaseOpCB`, js_callbacks.rs line 137). -/
def release (_ino _fh : Nat) (_args : ReleaseArgs) (fate : JsCallFate Int) :
    EmptyReply :=
  callJsInitialThread fate (fun _ => .ok) (.error ioErr)

/-- `opendir` (fs_impl.rs lines 405-418), identical in shape to `open`. -/
def opendir (validMask : Nat) (_ino : Nat) (_flags : Int)
    (fate : JsCallFate ParamsOfOpenedOrErr) : OpenReply :=
  callJsInitialThread fate (openWithReply validMask) (.error ioErr)

/-- One record passed to `ReplyDirectory::add`. -/
structure AddedEntry where
  ino : Nat
  offset : Nat
  kind : FileType
  name : String
deriving DecidableEq, Repr

/-- The record the readdir loop passes to `reply.add` for handler entry `e`
in a call on directory inode `dirIno` (fs_impl.rs lines 434-436): the first
argument is the call's own `ino`, not `e.ino`. -/
def addedFor (dirIno : Nat) (e : DirEntry) : AddedEntry :=
  { ino := dirIno
    offset := i64AsU64 e.offset
    kind := to_file_type e.kind
    name := e.name }

/-- State of a `ReplyDirectory` reply sink: buffer contents, number of
`ok()` calls, error codes sent. -/
structure DirReplyState where
  added : List AddedEntry
  okCount : Nat
  errs : List Int
deriving DecidableEq, Repr

/-- The `for` loop of `readdir` (fs_impl.rs lines 433-440).  The external
buffer is modelled by `fits buf e`: whether `reply.add` accepts entry `e`
given current contents `buf` (fuser's `add` returns `buffer_full = true`
without appending when the entry does not fit). -/
def readdirLoop (fits : List AddedEntry → AddedEntry → Bool) (dirIno : Nat)
    (buf : List AddedEntry) : List DirEntry → List AddedEntry
  | [] => buf
  | e :: rest =>
    if fits buf (addedFor dirIno e) then
      readdirLoop fits dirIno (buf ++ [addedFor dirIno e]) rest
    else buf

/-- The translation closure of `readdir` (fs_impl.rs lines 430-445): on a
listing, run the loop then `reply.ok()` once; on an error code, only
`reply.error`. -/
def readdirWithReply (fits : List AddedEntry → AddedEntry → Bool)
    (dirIno : Nat) : DirListing → DirReplyState
  | .lst l => { added := readdirLoop fits dirIno [] l, okCount := 1, errs := [] }
  | .err code => { added := [], okCount := 0, errs := [errnoFromI32 code] }

/-- `readdir` (fs_impl.rs lines 420-447). -/
def readdir (fits : List AddedEntry → AddedEntry → Bool) (ino _fh : Nat)
    (_offset : Nat) (fate : JsCallFate DirListing) : DirReplyState :=
  callJsInitialThread fate (readdirWithReply fits ino)
    { added := [], okCount := 0, errs := [ioErr] }

/-- `releasedir` (fs_impl.rs lines 463-475): discards the resolved value,
like `release`. -/
def releasedir (_ino _fh : Nat) (_flags : Int) (fate : JsCallFate Int) :
    EmptyReply :=
  callJsInitialThread fate (fun _ => .ok) (.error ioErr)

/-- `getxattr` (fs_impl.rs lines 512-524): marshals
`(ino.0 as i64, str_from_os(name), size)` and dispatches through
`send_xattr`. -/
def getxattr (_ino : Nat) (name : List Nat) (_size : Nat)
    (fate : JsCallFate XAttrBytesOrErr) : Option XattrReply :=
  match str_from_os name with
  | none => none
  | some _ => some (callJsInitialThread fate send_xattr (.error ioErr))

/-- `listxattr` (fs_impl.rs lines 526-531). -/
def listxattr (_ino _size : Nat) (fate : JsCallFate XAttrBytesOrErr) :
    XattrReply :=
  callJsInitialThread fate send_xattr (.error ioErr)

/-- The translation closure of `access` (fs_impl.rs lines 544-550). -/
def accessWithReply (err_code : Int) : EmptyReply :=
  if err_code = 0 then .ok else .error (errnoFromI32 err_code)

/-- `access` (fs_impl.rs lines 541-552). -/
def access (_ino : Nat) (_mask : Int) (fate : JsCallFate Int) : EmptyReply :=
  callJsInitialThread fate accessWithReply (.error ioErr)

/-! ### Helper lemmas -/

/-- The end-to-end behaviour of the bridge: the reply is the translation of
the delivered value when one arrives in time, and the EIO reply otherwise. -/
theorem callJsInitialThread_eq_translated {α ρ : Type}
    (fate : JsCallFate α) (withReply : α → ρ) (errReply : ρ) :
    callJsInitialThread fate withReply errReply =
      translated fate withReply errReply := by
  unfold callJsInitialThread translated deliveredValue
  cases recvTimeout RECV_TIMEOUT_SECS fate with
  | ok m => cases m <;> rfl
  | timeout => rfl
  | disconnected => rfl

/-- `translated` at a value delivered in time is the translation, and at no
delivered value the error reply. -/
theorem translated_eq {α ρ : Type} (fate : JsCallFate α) (tr : α → ρ) (er : ρ) :
    (∀ v, deliveredValue fate = some v → translated fate tr er = tr v) ∧
    (deliveredValue fate = none → translated fate tr er = er) := by
  constructor
  · intro v hv
    unfold translated
    rw [hv]
  · intro hv
    unfold translated
    rw [hv]

/-- The bridge on a handler that resolves within the bound: the reply is the
translation of the resolved value. -/
theorem callJsInitialThread_resolved {α ρ : Type} {t : Nat}
    (ht : t ≤ RECV_TIMEOUT_SECS) (v : α) (tr : α → ρ) (er : ρ) :
    callJsInitialThread (JsCallFate.resolveAt t v) tr er = tr v := by
  unfold callJsInitialThread recvTimeout
  simp only [sentSignal, eventTime, if_pos ht]

/-- `deliveredValue` on a resolution: the value is delivered iff it arrived
within the bound. -/
theorem deliveredValue_resolveAt {α : Type} (t : Nat) (v : α) :
    deliveredValue (JsCallFate.resolveAt t v) =
      if t ≤ RECV_TIMEOUT_SECS then some v else none := by
  by_cases h : t ≤ RECV_TIMEOUT_SECS <;>
    simp [deliveredValue, recvTimeout, sentSignal, eventTime, h]

/-- `deliveredValue` is `none` on every non-resolution fate. -/
theorem deliveredValue_not_resolved {α : Type} (fate : JsCallFate α)
    (h : ∀ t v, fate ≠ JsCallFate.resolveAt t v) :
    deliveredValue fate = none := by
  cases fate with
  | resolveAt t v => exact absurd rfl (h t v)
  | rejectAt t =>
      by_cases ht : t ≤ RECV_TIMEOUT_SECS <;>
        simp [deliveredValue, recvTimeout, sentSignal, eventTime, ht]
  | callbackErrAt t =>
      by_cases ht : t ≤ RECV_TIMEOUT_SECS <;>
        simp [deliveredValue, recvTimeout, sentSignal, eventTime, ht]
  | lostAt t =>
      by_cases ht : t ≤ RECV_TIMEOUT_SECS <;>
        simp [deliveredValue, recvTimeout, sentSignal, eventTime, ht]

/-- Characterization of the readdir loop: the buffer gains the image of a
prefix of the handler's list, every element of that prefix fit when it was
appended, and if anything of the list remains, its first element is exactly
the one the buffer rejected. -/
theorem readdirLoop_spec (fits : List AddedEntry → AddedEntry → Bool)
    (dirIno : Nat) :
    ∀ (l : List DirEntry) (buf : List AddedEntry),
      ∃ sentPart rest, l = sentPart ++ rest ∧
        readdirLoop fits dirIno buf l = buf ++ sentPart.map (addedFor dirIno) ∧
        (∀ e, rest.head? = some e →
          fits (buf ++ sentPart.map (addedFor dirIno)) (addedFor dirIno e) = false) ∧
        (∀ k (hk : k < sentPart.length),
          fits (buf ++ (sentPart.take k).map (addedFor dirIno))
            (addedFor dirIno (sentPart.get ⟨k, hk⟩)) = true) := by
  intro l
  induction l with
  | nil =>
      intro buf
      refine ⟨[], [], rfl, by simp [readdirLoop], by simp, ?_⟩
      intro k hk
      exact absurd hk (by simp)
  | cons e rest ih =>
      intro buf
      by_cases hfit : fits buf (addedFor dirIno e) = true
      · obtain ⟨sp, rs, heq, hrun, hstop, hall⟩ := ih (buf ++ [addedFor dirIno e])
        refine ⟨e :: sp, rs, by simp [heq], ?_, ?_, ?_⟩
        · simpa [readdirLoop, hfit] using hrun
        · intro x hx
          have := hstop x hx
          simpa using this
        · intro k hk
          match k with
          | 0 => simpa using hfit
          | Nat.succ j =>
              have hj : j < sp.length := by simpa using hk
              have := hall j hj
              simpa [List.take_succ_cons] using this
      · refine ⟨[], e :: rest, rfl, ?_, ?_, ?_⟩
        · simp [readdirLoop, hfit]
        · intro x hx
          simp only [List.head?_cons, Option.some.injEq] at hx
          subst hx
          simpa using (Bool.eq_false_iff.mpr hfit)
        · intro k hk
          exact absurd hk (by simp)

/-- C8: block count is the ceiling of size / 4096 (0 at size 0), block size is
the 4096 constant, and in `into_fuse` both are computed from the size field
alone. -/
theorem blocks_and_blksize_derived_from_size :
    (∀ size : Nat, blocks_in size = (size + 4095) / 4096) ∧
    blocks_in 0 = 0 ∧
    (∀ a : FileAttr,
      a.into_fuse.blocks = blocks_in (i64AsU64 a.size) ∧
      a.into_fuse.blksize = 4096) := by
  refine ⟨fun size => ?_, rfl, fun a => ⟨rfl, rfl⟩⟩
  simp only [blocks_in, BLOCK_SIZE]
  split <;> omega

/-- C9: attribute translation sets the protocol access time equal to the
handler-provided modification time and hard-codes the link count to 1,
whatever the handler returned. -/
theorem into_fuse_atime_eq_mtime_and_nlink_one :
    ∀ a : FileAttr,
      a.into_fuse.atime = system_time_from a.mtime ∧
      a.into_fuse.atime = a.into_fuse.mtime ∧
      a.into_fuse.nlink = 1 := by
  intro a
  exact ⟨rfl, rfl, rfl⟩

/-- C1: every value-returning operation waits on its per-call rendezvous
channel with the fixed 30-second timeout and produces exactly one reply per
call: the translation of the received value when `recv_timeout` returns
`Ok(Some(v))` within the bound, and the `Errno::EIO` error when `None`
arrives, the timeout elapses, or the channel closes without a send.  (For
lookup and getxattr this holds for every call whose kernel-supplied name
converts, i.e. is valid UTF-8.) -/
theorem exactly_one_reply_translation_or_io_error :
    RECV_TIMEOUT_SECS = 30 ∧
    (∀ (α ρ : Type) (fate : JsCallFate α) (withReply : α → ρ) (errReply : ρ),
      callJsInitialThread fate withReply errReply =
        translated fate withReply errReply) ∧
    (∀ (α ρ : Type) (fate : JsCallFate α) (tr : α → ρ) (er : ρ),
      (∀ v, deliveredValue fate = some v → translated fate tr er = tr v) ∧
      (deliveredValue fate = none → translated fate tr er = er)) ∧
    (∀ (α : Type) (t : Nat) (v : α),
      deliveredValue (JsCallFate.resolveAt t v) =
        if t ≤ RECV_TIMEOUT_SECS then some v else none) ∧
    (∀ (α : Type) (fate : JsCallFate α),
      (∀ t v, fate ≠ JsCallFate.resolveAt t v) → deliveredValue fate = none) ∧
    (∀ parent name s, str_from_os name = some s →
      ∀ fate, lookup parent name fate =
        some (translated fate lookupWithReply (EntryReply.error ioErr))) ∧
    (∀ ino fhOpt fate, getattr ino fhOpt fate =
      translated fate getattrWithReply (AttrReply.error ioErr)) ∧
    (∀ ino fhOpt changes fate, setattr ino fhOpt changes fate =
      translated fate getattrWithReply (AttrReply.error ioErr)) ∧
    (∀ validMask ino flags fate, openOp validMask ino flags fate =
      translated fate (openWithReply validMask) (OpenReply.error ioErr)) ∧
    (∀ ino fh args fate, read ino fh args fate =
      translated fate readWithReply (DataReply.error ioErr)) ∧
    (∀ ino fh args fate, release ino fh args fate =
      translated fate (fun _ => EmptyReply.ok) (EmptyReply.error ioErr)) ∧
    (∀ validMask ino flags fate, opendir validMask ino flags fate =
      translated fate (openWithReply validMask) (OpenReply.error ioErr)) ∧
    (∀ fits ino fh off fate, readdir fits ino fh off fate =
      translated fate (readdirWithReply fits ino)
        { added := [], okCount := 0, errs := [ioErr] }) ∧
    (∀ ino fh flags fate, releasedir ino fh flags fate =
      translated fate (fun _ => EmptyReply.ok) (EmptyReply.error ioErr)) ∧
    (∀ ino name s size, str_from_os name = some s →
      ∀ fate, getxattr ino name size fate =
        some (translated fate send_xattr (XattrReply.error ioErr))) ∧
    (∀ ino size fate, listxattr ino size fate =
      translated fate send_xattr (XattrReply.error ioErr)) ∧
    (∀ ino mask fate, access ino mask fate =
      translated fate accessWithReply (EmptyReply.error ioErr)) := by
  refine ⟨rfl,
    fun α ρ fate wr er => callJsInitialThread_eq_translated fate wr er,
    fun α ρ fate tr er => translated_eq fate tr er,
    fun α t v => deliveredValue_resolveAt t v,
    fun α fate h => deliveredValue_not_resolved fate h,
    ?_, ?_, ?_, ?_, ?_, ?_, ?_, ?_, ?_, ?_, ?_, ?_⟩
  · intro parent name s h fate
    simp only [lookup, h]
    exact congrArg some (callJsInitialThread_eq_translated fate _ _)
  · intro ino fhOpt fate
    exact callJsInitialThread_eq_translated fate _ _
  · intro ino fhOpt changes fate
    exact callJsInitialThread_eq_translated fate _ _
  · intro validMask ino flags fate
    exact callJsInitialThread_eq_translated fate _ _
  · intro ino fh args fate
    exact callJsInitialThread_eq_translated fate _ _
  · intro ino fh args fate
    exact callJsInitialThread_eq_translated fate _ _
  · intro validMask ino flags fate
    exact callJsInitialThread_eq_translated fate _ _
  · intro fits ino fh off fate
    exact callJsInitialThread_eq_translated fate _ _
  · intro ino fh flags fate
    exact callJsInitialThread_eq_translated fate _ _
  · intro ino name s size h fate
    simp only [getxattr, h]
    exact congrArg some (callJsInitialThread_eq_translated fate _ _)
  · intro ino size fate
    exact callJsInitialThread_eq_translated fate _ _
  · intro ino mask fate
    exact callJsInitialThread_eq_translated fate _ _

/-- Witness for C1: a concrete lookup whose completion continuation was lost
(channel closed without a send) replies the generic I/O error. -/
theorem exactly_one_reply_translation_or_io_error_witness :
    lookup 1 [97] (JsCallFate.lostAt 0) = some (EntryReply.error ioErr) := by
  have h := exactly_one_reply_translation_or_io_error.2.2.2.2.2.1
    1 [97] [97] (by decide) (JsCallFate.lostAt 0)
  rw [h]
  rfl

/-- C2: a lookup whose handler resolves with success attributes within the
timeout replies with exactly the handler-provided fields (inode, size, kind,
permissions, ids, timestamps, flags, each under its translation), a validity
duration of exactly 1 second, and generation 0. -/
theorem lookup_roundtrip_with_ttl_and_generation
    (parent : Nat) (name s : List Nat) (hname : str_from_os name = some s)
    (attrs : FileAttr) (t : Nat) (ht : t ≤ RECV_TIMEOUT_SECS) :
    lookup parent name (JsCallFate.resolveAt t (FileAttrOrErr.attr attrs)) =
      some (EntryReply.entry TTL_SECS attrs.into_fuse 0) ∧
    TTL_SECS = 1 ∧
    attrs.into_fuse.ino = i64AsU64 attrs.ino ∧
    attrs.into_fuse.size = i64AsU64 attrs.size ∧
    attrs.into_fuse.kind = to_file_type attrs.kind ∧
    attrs.into_fuse.perm = attrs.perm ∧
    attrs.into_fuse.uid = attrs.uid ∧
    attrs.into_fuse.gid = attrs.gid ∧
    attrs.into_fuse.rdev = attrs.rdev ∧
    attrs.into_fuse.mtime = system_time_from attrs.mtime ∧
    attrs.into_fuse.ctime = system_time_from attrs.ctime ∧
    attrs.into_fuse.crtime = system_time_from attrs.btime ∧
    attrs.into_fuse.flags = attrs.flags := by
  refine ⟨?_, rfl, rfl, rfl, rfl, rfl, rfl, rfl, rfl, rfl, rfl, rfl, rfl⟩
  simp only [lookup, hname]
  rw [callJsInitialThread_eq_translated]
  unfold translated
  rw [deliveredValue_resolveAt, if_pos ht]
  rfl

/-- The attribute value of the spec's round-trip example:
inode 42, size 1024, kind File. -/
def exampleLookupAttr : FileAttr :=
  { ino := 42, size := 1024, mtime := 1000, ctime := 2000, btime := 3000,
    kind := InodeKind.file, perm := 420, uid := 1000, gid := 1000,
    rdev := 0, flags := 0 }

/-- Witness for C2: the spec's example attributes round-trip through a
resolved lookup with a 1-second validity and generation 0. -/
theorem lookup_roundtrip_witness :
    lookup 1 [97]
      (JsCallFate.resolveAt 0 (FileAttrOrErr.attr exampleLookupAttr)) =
      some (EntryReply.entry 1 exampleLookupAttr.into_fuse 0) ∧
    exampleLookupAttr.into_fuse.ino = 42 ∧
    exampleLookupAttr.into_fuse.size = 1024 ∧
    exampleLookupAttr.into_fuse.kind = FileType.regularFile := by
  have h := lookup_roundtrip_with_ttl_and_generation 1 [97] [97] (by decide)
    exampleLookupAttr 0 (by decide)
  exact ⟨h.1, by decide, by decide, by decide⟩

/-- A reply buffer that accepts exactly two entries (the shape of the spec's
directory-listing example). -/
def fitsTwo : List AddedEntry → AddedEntry → Bool :=
  fun buf _ => buf.length < 2

/-- C3: a readdir whose handler resolves with an entry list appends the
entries to the buffer in handler order, is cut off at the first append the
buffer rejects (every earlier append fit, nothing after is sent), sends the
terminal ok exactly once with no error, and on the error path sends only the
error and never ok.  The spec's example: entries [A, B, C] against a buffer
full after two appends yield exactly [A, B] plus one ok. -/
theorem readdir_order_prefix_ok_once
    (fits : List AddedEntry → AddedEntry → Bool) (ino fh off t : Nat)
    (ht : t ≤ RECV_TIMEOUT_SECS) :
    (∀ l : List DirEntry,
      (readdir fits ino fh off (JsCallFate.resolveAt t (DirListing.lst l))).okCount = 1 ∧
      (readdir fits ino fh off (JsCallFate.resolveAt t (DirListing.lst l))).errs = [] ∧
      (∃ sentPart rest, l = sentPart ++ rest ∧
        (readdir fits ino fh off (JsCallFate.resolveAt t (DirListing.lst l))).added =
          sentPart.map (addedFor ino) ∧
        (∀ e, rest.head? = some e →
          fits (sentPart.map (addedFor ino)) (addedFor ino e) = false) ∧
        (∀ k (hk : k < sentPart.length),
          fits ((sentPart.take k).map (addedFor ino))
            (addedFor ino (sentPart.get ⟨k, hk⟩)) = true))) ∧
    (∀ code : Int,
      readdir fits ino fh off (JsCallFate.resolveAt t (DirListing.err code)) =
        { added := [], okCount := 0, errs := [errnoFromI32 code] }) ∧
    (∀ A B C : DirEntry,
      readdir fitsTwo ino fh off (JsCallFate.resolveAt t (DirListing.lst [A, B, C])) =
        { added := [addedFor ino A, addedFor ino B], okCount := 1, errs := [] }) := by
  have hred : ∀ (f : List AddedEntry → AddedEntry → Bool) (d : DirListing),
      readdir f ino fh off (JsCallFate.resolveAt t d) = readdirWithReply f ino d := by
    intro f d
    unfold readdir
    exact callJsInitialThread_resolved ht d _ _
  refine ⟨?_, ?_, ?_⟩
  · intro l
    obtain ⟨sp, rs, heq, hrun, hstop, hall⟩ := readdirLoop_spec fits ino l []
    rw [hred]
    refine ⟨rfl, rfl, sp, rs, heq, ?_, ?_, ?_⟩
    · show readdirLoop fits ino [] l = sp.map (addedFor ino)
      simpa using hrun
    · intro e he
      simpa using hstop e he
    · intro k hk
      simpa using hall k hk
  · intro code
    rw [hred]
    rfl
  · intro A B C
    rw [hred]
    simp [readdirWithReply, readdirLoop, fitsTwo]

/-- Witness for C3: the spec's directory-listing example, computed: three
entries against a two-entry buffer give exactly the first two appends plus
one terminal ok and no error. -/
theorem readdir_order_prefix_ok_once_witness :
    readdir fitsTwo 7 1 0 (JsCallFate.resolveAt 0 (DirListing.lst
      [{ ino := 10, offset := 1, kind := InodeKind.file, name := "A" },
       { ino := 11, offset := 2, kind := InodeKind.file, name := "B" },
       { ino := 12, offset := 3, kind := InodeKind.directory, name := "C" }])) =
      { added := [{ ino := 7, offset := 1, kind := FileType.regularFile, name := "A" },
                  { ino := 7, offset := 2, kind := FileType.regularFile, name := "B" }],
        okCount := 1, errs := [] } := by
  have h := (readdir_order_prefix_ok_once fitsTwo 7 1 0 0 (by decide)).2.2
    { ino := 10, offset := 1, kind := InodeKind.file, name := "A" }
    { ino := 11, offset := 2, kind := InodeKind.file, name := "B" }
    { ino := 12, offset := 3, kind := InodeKind.directory, name := "C" }
  rw [h]
  rfl

/-- C4 fails on the code: the readdir loop passes the call's own directory
inode to every `reply.add`, not the entry's child inode.  At a readdir on
directory inode 1 whose handler returns one entry with child inode 42, the
appended record carries ino 1, while the entry's translated child inode is
42. -/
theorem readdir_append_uses_call_ino_failing_input :
    (readdir (fun _ _ => true) 1 1 0 (JsCallFate.resolveAt 0 (DirListing.lst
      [{ ino := 42, offset := 7, kind := InodeKind.file, name := "a" }]))).added =
      [{ ino := 1, offset := 7, kind := FileType.regularFile, name := "a" }] ∧
    i64AsU64 42 = 42 ∧ (1 : Nat) ≠ 42 := by
  exact ⟨rfl, by decide, by decide⟩

/-- C5: a handler that resolves an explicit error code E within the timeout
makes each operation reply exactly the protocol error E, unchanged. -/
theorem explicit_error_codes_surface_verbatim
    (E : Int) (hE : E ≠ 0) (t : Nat) (ht : t ≤ RECV_TIMEOUT_SECS)
    (parent ino fh size off mask validMask : Nat) (fhOpt : Option Nat)
    (changes : AttrChanges) (rargs : ReadArgs) (flags : Int)
    (name s : List Nat) (hname : str_from_os name = some s)
    (fits : List AddedEntry → AddedEntry → Bool) :
    lookup parent name (JsCallFate.resolveAt t (FileAttrOrErr.err E)) =
      some (EntryReply.error E) ∧
    getattr ino fhOpt (JsCallFate.resolveAt t (FileAttrOrErr.err E)) =
      AttrReply.error E ∧
    setattr ino fhOpt changes (JsCallFate.resolveAt t (FileAttrOrErr.err E)) =
      AttrReply.error E ∧
    openOp validMask ino flags (JsCallFate.resolveAt t (ParamsOfOpenedOrErr.err E)) =
      OpenReply.error E ∧
    opendir validMask ino flags (JsCallFate.resolveAt t (ParamsOfOpenedOrErr.err E)) =
      OpenReply.error E ∧
    read ino fh rargs (JsCallFate.resolveAt t (BufferOrErr.err E)) =
      DataReply.error E ∧
    readdir fits ino fh off (JsCallFate.resolveAt t (DirListing.err E)) =
      { added := [], okCount := 0, errs := [E] } ∧
    getxattr ino name size (JsCallFate.resolveAt t (XAttrBytesOrErr.err E)) =
      some (XattrReply.error E) ∧
    listxattr ino size (JsCallFate.resolveAt t (XAttrBytesOrErr.err E)) =
      XattrReply.error E ∧
    access ino mask (JsCallFate.resolveAt t E) = EmptyReply.error E := by
  refine ⟨?_, ?_, ?_, ?_, ?_, ?_, ?_, ?_, ?_, ?_⟩
  · simp only [lookup, hname, callJsInitialThread_resolved ht]
    rfl
  · simp only [getattr, callJsInitialThread_resolved ht]
    rfl
  · simp only [setattr, callJsInitialThread_resolved ht]
    rfl
  · simp only [openOp, callJsInitialThread_resolved ht]
    rfl
  · simp only [opendir, callJsInitialThread_resolved ht]
    rfl
  · simp only [read, callJsInitialThread_resolved ht]
    rfl
  · simp only [readdir, callJsInitialThread_resolved ht]
    rfl
  · simp only [getxattr, hname, callJsInitialThread_resolved ht]
    rfl
  · simp only [listxattr, callJsInitialThread_resolved ht]
    rfl
  · simp only [access, callJsInitialThread_resolved ht, accessWithReply,
      errnoFromI32]
    rw [if_neg hE]

/-- Witness for C5: a getattr resolving error code 13 replies exactly 13. -/
theorem explicit_error_codes_surface_verbatim_witness :
    getattr 1 none (JsCallFate.resolveAt 0 (FileAttrOrErr.err 13)) =
      AttrReply.error 13 :=
  (explicit_error_codes_surface_verbatim 13 (by decide) 0 (by decide)
    1 1 1 0 0 0 0 none { mode := none, uid := none, gid := none, flags := none }
    { offset := 0, size := 0, flags := 0, lock_owner := none } 0
    [97] [97] (by decide) fitsTwo).2.1

/-- C6: release and releasedir reply the bare ok whatever value the handler
resolves with; the handler's returned code is never surfaced. -/
theorem release_discards_handler_code
    (ino fh : Nat) (args : ReleaseArgs) (flags code : Int) (t : Nat)
    (ht : t ≤ RECV_TIMEOUT_SECS) :
    release ino fh args (JsCallFate.resolveAt t code) = EmptyReply.ok ∧
    releasedir ino fh flags (JsCallFate.resolveAt t code) = EmptyReply.ok := by
  constructor
  · simp only [release, callJsInitialThread_resolved ht]
  · simp only [releasedir, callJsInitialThread_resolved ht]

/-- Witness for C6: a release whose handler resolves the nonzero code 13
still replies ok. -/
theorem release_discards_handler_code_witness :
    release 1 1 { flags := 0, lock_owner := none, flush := false }
      (JsCallFate.resolveAt 0 13) = EmptyReply.ok :=
  (release_discards_handler_code 1 1
    { flags := 0, lock_owner := none, flush := false } 0 13 0 (by decide)).1

/-- C7: readlink is answered immediately with the fixed ENOSYS ("not
supported") error for every inode; its body contains no `call_js!`, so the
embedding takes no handler fate — no handler-registry callable is engaged
and no rendezvous channel exists for the call. -/
theorem readlink_fixed_unsupported_error :
    (∀ ino : Nat, readlink ino = DataReply.error enosysErr) ∧ enosysErr = 38 :=
  ⟨fun _ => rfl, rfl⟩

/-- C10: the kernel-supplied name of lookup and getxattr goes through an
unchecked unwrap: conversion succeeds exactly on valid UTF-8, and on any
other name the dispatch panics and no reply is produced (`none`), so the
step is total only under the valid-UTF-8 precondition. -/
theorem name_conversion_total_only_on_utf8 :
    (∀ name : List Nat, (str_from_os name).isSome = utf8Valid name) ∧
    (∀ parent name fate, utf8Valid name = false →
      lookup parent name fate = none) ∧
    (∀ parent name fate, utf8Valid name = true →
      lookup parent name fate =
        some (callJsInitialThread fate lookupWithReply (EntryReply.error ioErr))) ∧
    (∀ ino name size fate, utf8Valid name = false →
      getxattr ino name size fate = none) ∧
    (∀ ino name size fate, utf8Valid name = true →
      getxattr ino name size fate =
        some (callJsInitialThread fate send_xattr (XattrReply.error ioErr))) := by
  refine ⟨?_, ?_, ?_, ?_, ?_⟩
  · intro name
    unfold str_from_os
    by_cases h : utf8Valid name <;> simp [h]
  · intro parent name fate h
    simp [lookup, str_from_os, h]
  · intro parent name fate h
    simp [lookup, str_from_os, h]
  · intro ino name size fate h
    simp [getxattr, str_from_os, h]
  · intro ino name size fate h
    simp [getxattr, str_from_os, h]

/-- Witness for C10: the invalid byte 0xFF as a lookup name and the invalid
byte 0xC0 as a getxattr name both make the dispatch panic (no reply). -/
theorem name_conversion_total_only_on_utf8_witness :
    lookup 1 [255] (JsCallFate.lostAt 0) = none ∧
    getxattr 1 [192] 0 (JsCallFate.lostAt 0) = none := by
  constructor
  · exact name_conversion_total_only_on_utf8.2.1 1 [255]
      (JsCallFate.lostAt 0) (by decide)
  · exact name_conversion_total_only_on_utf8.2.2.2.1 1 [192] 0
      (JsCallFate.lostAt 0) (by decide)

end NapiFuser
